import Mathlib

/-!
A verification development for the rt11fs filesystem core.

The definitions below are a shallow embedding of the C++ sources:
  * `Rad50` — fslib/Rad50.cpp
  * `Block` — fslib/Block.cpp (byte buffer, little-endian words, resize)
  * `BlockCache.getBlock` — fslib/BlockCache.cpp
  * `DirPtr` — src/DirPtr.cpp (cursor traversal; `prev` as written there)
  * `DirChangeTracker` — fslib/DirChangeTracker.cpp
  * `Directory` — fslib/Directory.cpp (truncate/shrink/grow, remove, rename,
    coalesce, insert/delete/spill, makeEntryPermanent)
  * `OpenFileTable` — fslib/OpenFileTable.cpp

Machine integers are modelled as `Nat` (bytes, words — with explicit `% 256` /
`% 65536` where a C++ narrowing conversion happens) or `Int` (C++ `int`/`off_t`
values that may be negative).  Byte buffers are `List Nat`; reads use `List.getD`
with default 0 and writes use `List.set` — C++ `vector::at` would throw
`std::out_of_range` instead, and every use in the verified paths stays in range.
Loops whose termination depends on the consistency of on-disk data take an
explicit fuel argument and return `Option`; `none` means the fuel ran out (the
C++ code would loop or fault on such corrupt data).
-/

namespace RT11 /- Verification namespace for the rt11fs core. -/

/-- Byte buffers: write the bytes of `chunk` starting at index `i`
(`memcpy`-style; `List.set` ignores out-of-range indices, where `vector::at`
in the C++ would throw). -/
def setBytes : List Nat → Nat → List Nat → List Nat
  | l, _, [] => l
  | l, i, b :: rest => setBytes (l.set i b) (i + 1) rest

/-- `vector::resize` semantics: truncate to `n`, or pad with zero bytes. -/
def listResize (l : List Nat) (n : Nat) : List Nat :=
  l.take n ++ List.replicate (n - l.length) 0

namespace Rad50

/-- The Rad50 alphabet, fslib/Rad50.cpp `charset`:
space, A–Z, `$`, `.`, `%`, digits — ordinals 0..39. -/
def charset : List Char :=
  [' ', 'A', 'B', 'C', 'D', 'E', 'F', 'G', 'H', 'I', 'J', 'K', 'L', 'M',
   'N', 'O', 'P', 'Q', 'R', 'S', 'T', 'U', 'V', 'W', 'X', 'Y', 'Z',
   '$', '.', '%', '0', '1', '2', '3', '4', '5', '6', '7', '8', '9']

/-- `charset.find(ch)` of the C++ source: first index of `ch`, or `none`. -/
def findChar : List Char → Char → Option Nat
  | [], _ => none
  | c :: rest, ch => if c = ch then some 0 else (findChar rest ch).map (· + 1)

/-- `Rad50::toRad50` loop body: `result = result * BASE + index` on a
`uint16_t` accumulator. -/
def toRad50Go : List Char → Nat → Option Nat
  | [], acc => some acc
  | c :: rest, acc =>
    match findChar charset c with
    | none => none
    | some i => toRad50Go rest ((acc * 40 + i) % 65536)

/-- `Rad50::toRad50`: `none` stands for the C++ `return false` path
(wrong length or character outside the alphabet). -/
def toRad50 (s : List Char) : Option Nat :=
  if s.length ≠ 3 then none else toRad50Go s 0

/-- `Rad50::fromRad50`: unpack a word into three alphabet characters
(`charset.substr(i, 1)` modelled as `charset.getD i`). -/
def fromRad50 (rad50 : Nat) : List Char :=
  [charset.getD (rad50 / (40 * 40)) ' ',
   charset.getD ((rad50 / 40) % 40) ' ',
   charset.getD (rad50 % 40) ' ']

end Rad50

/-- The `DataSource` interface (fslib/DataSource.h), reduced to its `read`
operation: given a length and an offset (both in bytes), either the full
requested data (`ok`) or a negative errno (`error`) — partial transfers are not
tolerated by the interface contract. -/
def DataSrc : Type := Int → Int → Except Int (List Nat)

/-- fslib/Block.h: a cached run of contiguous sectors. -/
structure Block where
  sector : Int
  count : Int
  dirty : Bool
  refcount : Int
  data : List Nat
  deriving Repr, DecidableEq

namespace Block

/-- `Block::SECTOR_SIZE`. -/
def SECTOR_SIZE : Nat := 512

/-- `Block::getByte` (in-range reads; `vector::at` throws out of range). -/
def getByte (b : Block) (offset : Nat) : Nat :=
  b.data.getD offset 0

/-- `Block::extractWord`: little-endian 16-bit word. -/
def extractWord (b : Block) (offset : Nat) : Nat :=
  b.getByte offset + 256 * b.getByte (offset + 1)

/-- `Block::setByte`: store a byte (C++ takes `uint8_t`, hence `% 256`)
and set the dirty flag. -/
def setByte (b : Block) (offset : Nat) (value : Nat) : Block :=
  { b with data := b.data.set offset (value % 256), dirty := true }

/-- `Block::setWord`: store a 16-bit word in little-endian order (C++ takes
`uint16_t`, hence `% 65536`) and set the dirty flag. -/
def setWord (b : Block) (offset : Nat) (value : Nat) : Block :=
  let v := value % 65536
  { b with
    data := (b.data.set offset (v % 256)).set (offset + 1) (v / 256)
    dirty := true }

/-- `Block::copyWithinBlock`: `memmove` inside the buffer (the source range is
snapshotted before writing, which is exactly memmove's overlap-safe
behaviour); sets the dirty flag. The C++ bounds checks throw `-EIO`; all
verified uses stay in bounds. -/
def copyWithinBlock (b : Block) (sourceOffset destOffset cnt : Nat) : Block :=
  let chunk := (b.data.drop sourceOffset).take cnt
  { b with data := setBytes b.data destOffset chunk, dirty := true }

/-- `Block::zeroFill`. -/
def zeroFill (b : Block) (offset cnt : Nat) : Block :=
  { b with data := setBytes b.data offset (List.replicate cnt 0), dirty := true }

/-- `Block::read`: fill the whole buffer from the data source; an I/O error is
raised as a fault carrying the negative errno. Success clears the dirty flag. -/
def read (b : Block) (ds : DataSrc) : Except Int Block :=
  match ds (b.count * (512 : Nat)) (b.sector * (512 : Nat)) with
  | .error err => .error err
  | .ok chunk => .ok { b with data := setBytes b.data 0 chunk, dirty := false }

/-- `Block::resize` (fslib/Block.cpp:271-292), exactly as written: the buffer is
resized to `newCount * SECTOR_SIZE`; on a grow, the tail is read from the data
source; if that read fails the C++ does `data.resize(count)` — the old *sector
count*, not the old byte size — and re-raises. The error carries the block
state observable at the throw. -/
def resize (b : Block) (newCount : Int) (ds : DataSrc) : Except (Int × Block) Block :=
  let b1 := { b with data := listResize b.data (newCount * (512 : Int)).toNat }
  if newCount > b.count then
    let toSeek := (b.sector + b.count) * (512 : Nat)
    let toRead := (newCount - b.count) * (512 : Nat)
    let at1 := (b.count * (512 : Int)).toNat
    match ds toRead toSeek with
    | .error err =>
      .error (err, { b1 with data := listResize b1.data b.count.toNat })
    | .ok chunk =>
      .ok { b1 with data := setBytes b1.data at1 chunk, count := newCount }
  else
    .ok { b1 with count := newCount }

end Block

/-- fslib/BlockCache.h: the resident set is a sequence of blocks ordered by
starting sector. -/
structure BlockCache where
  sectors : Int
  blocks : List Block
  deriving Repr, DecidableEq

namespace BlockCache

/-- The walk of `BlockCache::getBlock` (fslib/BlockCache.cpp:55-88) over the
resident list, carrying the already-visited prefix. Note the final overlap
test as written: it only throws `-EINVAL` when the *counts differ*; when the
straddling request has the same count as the resident block, the loop falls
through to the next iteration. -/
def getBlockWalk (ds : DataSrc) (sector count : Int) :
    List Block → List Block → Except Int (List Block × Block)
  | pre, [] =>
    match Block.read { sector := sector, count := count, dirty := false,
                       refcount := 0, data := List.replicate (count * (512:Int)).toNat 0 } ds with
    | .error err => .error err
    | .ok nb => .ok (pre ++ [nb], nb)
  | pre, bp :: rest =>
    if bp.sector = sector then
      if bp.count ≠ count then .error (-22)
      else
        let bp1 := { bp with refcount := bp.refcount + 1 }
        .ok (pre ++ bp1 :: rest, bp1)
    else if sector ≥ bp.sector + bp.count then
      getBlockWalk ds sector count (pre ++ [bp]) rest
    else if sector + count ≤ bp.sector then
      match Block.read { sector := sector, count := count, dirty := false,
                         refcount := 0, data := List.replicate (count * (512:Int)).toNat 0 } ds with
      | .error err => .error err
      | .ok nb => .ok (pre ++ nb :: bp :: rest, nb)
    else if bp.count ≠ count then .error (-22)
    else getBlockWalk ds sector count (pre ++ [bp]) rest

/-- `BlockCache::getBlock`. -/
def getBlock (ds : DataSrc) (c : BlockCache) (sector count : Int) :
    Except Int (BlockCache × Block) :=
  match getBlockWalk ds sector count [] c.blocks with
  | .error err => .error err
  | .ok (bs, b) => .ok ({ c with blocks := bs }, b)

/-- Whether two resident blocks overlap (used to state the cache invariant the
claim is about). -/
def blocksOverlap (a b : Block) : Bool :=
  a.sector < b.sector + b.count && b.sector < a.sector + a.count

/-- Whether any two distinct resident blocks of a list overlap. -/
def anyOverlap : List Block → Bool
  | [] => false
  | b :: rest => rest.any (blocksOverlap b) || anyOverlap rest

end BlockCache

namespace Dir

/-- fslib/DirConst.h status bits (octal in the source). -/
def E_TENT : Nat := 0o400
def E_MPTY : Nat := 0o1000
def E_PERM : Nat := 0o2000
def E_EOS : Nat := 0o4000
def E_READ : Nat := 0o40000
def E_PROT : Nat := 0o100000
def E_PRE : Nat := 0o20

/-- fslib/DirConst.h segment-header word offsets. -/
def TOTAL_SEGMENTS : Nat := 0
def NEXT_SEGMENT : Nat := 2
def HIGHEST_SEGMENT : Nat := 4
def EXTRA_BYTES : Nat := 6
def SEGMENT_DATA_BLOCK : Nat := 8
def FIRST_ENTRY_OFFSET : Nat := 10

/-- fslib/DirConst.h entry-field offsets. -/
def STATUS_WORD : Nat := 0
def FILENAME_WORDS : Nat := 2
def TOTAL_LENGTH_WORD : Nat := 8
def JOB_BYTE : Nat := 10
def CHANNEL_BYTE : Nat := 11
def CREATION_DATE_WORD : Nat := 12
def ENTRY_LENGTH : Nat := 14

def FIRST_SEGMENT_SECTOR : Nat := 6
def SECTORS_PER_SEGMENT : Nat := 2

end Dir

/-- src/DirPtr.h: a cursor into the directory, which lives in one oversized
block. `segment` is 1-based; `-1` is the "before start" sentinel and `0` is
"after end". `segbase` is the byte offset of the current segment (only ever
assigned from a segment number ≥ 1), `datasec` the starting data sector of the
pointed-to entry. -/
structure DirPtr where
  entrySize : Nat
  segment : Int
  index : Nat
  segbase : Nat
  datasec : Int
  deriving Repr, DecidableEq

namespace DirPtr

/-- `DirPtr::DirPtr(Block*)`: the "before start" cursor. -/
def mk0 (dirblk : Block) : DirPtr :=
  { entrySize := Dir.ENTRY_LENGTH + dirblk.extractWord Dir.EXTRA_BYTES
    segment := -1
    index := 0
    segbase := 0
    datasec := dirblk.extractWord Dir.SEGMENT_DATA_BLOCK }

def beforeStart (p : DirPtr) : Bool := p.segment = -1
def afterEnd (p : DirPtr) : Bool := p.segment = 0

/-- `DirPtr::offset`. -/
def offset (p : DirPtr) (delta : Nat) : Nat :=
  p.segbase + Dir.FIRST_ENTRY_OFFSET + p.index * p.entrySize + delta

/-- `DirPtr::getWord`. -/
def getWord (dirblk : Block) (p : DirPtr) (offs : Nat) : Nat :=
  dirblk.extractWord (p.offset offs)

/-- `DirPtr::setWord`. -/
def setWord (dirblk : Block) (p : DirPtr) (offs : Nat) (v : Nat) : Block :=
  dirblk.setWord (p.offset offs) v

/-- `DirPtr::setByte`. -/
def setByte (dirblk : Block) (p : DirPtr) (offs : Nat) (v : Nat) : Block :=
  dirblk.setByte (p.offset offs) v

/-- `DirPtr::setSegmentWord`. -/
def setSegmentWord (dirblk : Block) (p : DirPtr) (offs : Nat) (v : Nat) : Block :=
  dirblk.setWord (p.segbase + offs) v

/-- `DirPtr::hasStatus`: all bits of `mask` set in the status word. -/
def hasStatus (dirblk : Block) (p : DirPtr) (mask : Nat) : Bool :=
  (getWord dirblk p Dir.STATUS_WORD
    &&& mask) = mask

/-- `DirPtr::setSegment`: set the segment number and recompute `segbase`.
Only called with `seg ≥ 1`, so the `Int.toNat` is exact. -/
def setSegment (p : DirPtr) (seg : Int) : DirPtr :=
  { p with segment := seg
           segbase := ((seg - 1) * (Dir.SECTORS_PER_SEGMENT * Block.SECTOR_SIZE : Nat)).toNat }

/-- `DirPtr::increment` (src/DirPtr.cpp:169-203). -/
def increment (dirblk : Block) (p : DirPtr) : DirPtr :=
  if p.afterEnd then p
  else if p.beforeStart then
    let p := p.setSegment 1
    { p with index := 0
             datasec := dirblk.extractWord (p.segbase + Dir.SEGMENT_DATA_BLOCK) }
  else
    let status := getWord dirblk p Dir.STATUS_WORD
    if status &&& Dir.E_EOS = 0 then
      { p with datasec := p.datasec + getWord dirblk p Dir.TOTAL_LENGTH_WORD
               index := p.index + 1 }
    else
      let seg : Int := dirblk.extractWord (p.segbase + Dir.NEXT_SEGMENT)
      if seg = 0 then { p with segment := 0 }
      else
        let p := p.setSegment seg
        { p with index := 0
                 datasec := dirblk.extractWord (p.segbase + Dir.SEGMENT_DATA_BLOCK) }

/-- `DirPtr::next`: copy then pre-increment. -/
def next (dirblk : Block) (p : DirPtr) : DirPtr :=
  increment dirblk p

/-- `DirPtr::prev` exactly as written in src/DirPtr.cpp:159-163: the body is
`auto prevp = *this; return ++prevp;` — it *increments* the copy, even though
the doc comment promises the previous entry. -/
def prev (dirblk : Block) (p : DirPtr) : DirPtr :=
  increment dirblk p

/-- The "walk the segment list to the last segment" loop of
`DirPtr::decrement` (`while next_segment ≠ 0`), with fuel. -/
def walkToLastSegment (dirblk : Block) : Nat → DirPtr → Option DirPtr
  | 0, _ => none
  | fuel + 1, p =>
    let nxt := dirblk.extractWord (p.segbase + Dir.NEXT_SEGMENT)
    if nxt = 0 then some p
    else walkToLastSegment dirblk fuel (p.setSegment nxt)

/-- The "walk the segment list from 1 until `next_segment` is the current
segment" loop of `DirPtr::decrement`; the assert `next != 0` is modelled as
`none`. -/
def walkToSegmentBefore (dirblk : Block) (curr : Int) : Nat → DirPtr → Option DirPtr
  | 0, _ => none
  | fuel + 1, p =>
    let nxt : Int := dirblk.extractWord (p.segbase + Dir.NEXT_SEGMENT)
    if nxt = 0 then none
    else if nxt = curr then some p
    else walkToSegmentBefore dirblk curr fuel (p.setSegment nxt)

/-- The "scan forward until the EOS entry" loop of `DirPtr::decrement`. -/
def scanToEos (dirblk : Block) : Nat → DirPtr → Option DirPtr
  | 0, _ => none
  | fuel + 1, p =>
    if getWord dirblk p Dir.STATUS_WORD &&& Dir.E_EOS = 0 then
      scanToEos dirblk fuel (increment dirblk p)
    else some p

/-- `DirPtr::decrement` (src/DirPtr.cpp:209-276). The two segment-list walks
and the scan to the EOS marker take fuel. -/
def decrement (fuel : Nat) (dirblk : Block) (p : DirPtr) : Option DirPtr :=
  if p.beforeStart then some p
  else if p.afterEnd then do
    let p ← walkToLastSegment dirblk fuel (p.setSegment 1)
    let p := { p with index := 0
                      datasec := (dirblk.extractWord (p.segbase + Dir.SEGMENT_DATA_BLOCK) : Int) }
    scanToEos dirblk fuel p
  else if p.index ≠ 0 then
    let p := { p with index := p.index - 1 }
    some { p with datasec := p.datasec - getWord dirblk p Dir.TOTAL_LENGTH_WORD }
  else if p.segment = 1 then
    some { p with segment := -1 }
  else do
    let p ← walkToSegmentBefore dirblk p.segment fuel (p.setSegment 1)
    let p := { p with index := 0
                      datasec := (dirblk.extractWord (p.segbase + Dir.SEGMENT_DATA_BLOCK) : Int) }
    scanToEos dirblk fuel p

/-- `DirPtr::operator bool`: a valid (dereferenceable) cursor. -/
def valid (p : DirPtr) : Bool := !p.beforeStart && !p.afterEnd

end DirPtr

/-- `DirChangeTracker::Entry` (fslib/DirChangeTracker.h): one net move record. -/
structure MoveEntry where
  oldSegment : Int
  oldIndex : Nat
  moveTransaction : Int
  newSegment : Int
  newIndex : Nat
  deriving Repr, DecidableEq

/-- fslib/DirChangeTracker.h state. -/
structure DirChangeTracker where
  transaction : Int
  inTransaction : Bool
  moves : List MoveEntry
  deriving Repr, DecidableEq

namespace DirChangeTracker

/-- `DirChangeTracker::DirChangeTracker()`. -/
def new : DirChangeTracker :=
  { transaction := -1, inTransaction := false, moves := [] }

/-- `DirChangeTracker::beginTransaction` (the assert is a no-op here). -/
def beginTransaction (t : DirChangeTracker) : DirChangeTracker :=
  { t with transaction := t.transaction + 1, inTransaction := true }

/-- The `find_if` + in-place rewrite of `DirChangeTracker::moveDirEntry`:
look for the first record whose current destination is the new source and
whose last-touched transaction differs from the current one; if found,
rewrite its destination and transaction. -/
def rewriteChain (txn : Int) (srcSeg : Int) (srcIdx : Nat) (dstSeg : Int)
    (dstIdx : Nat) : List MoveEntry → Option (List MoveEntry)
  | [] => none
  | e :: rest =>
    if e.newSegment = srcSeg ∧ e.newIndex = srcIdx ∧ e.moveTransaction ≠ txn then
      some ({ e with moveTransaction := txn, newSegment := dstSeg, newIndex := dstIdx } :: rest)
    else
      (rewriteChain txn srcSeg srcIdx dstSeg dstIdx rest).map (e :: ·)

/-- `DirChangeTracker::moveDirEntry` (fslib/DirChangeTracker.cpp:42-75): only
`TENT` or `PERM` sources are recorded (the status is read through the source
cursor from the directory block); a chained move rewrites the matching record,
otherwise a fresh record is appended. -/
def moveDirEntry (dirblk : Block) (src dst : DirPtr) (t : DirChangeTracker) :
    DirChangeTracker :=
  if ¬(DirPtr.hasStatus dirblk src Dir.E_TENT ∨ DirPtr.hasStatus dirblk src Dir.E_PERM) then
    t
  else
    match rewriteChain t.transaction src.segment src.index dst.segment dst.index t.moves with
    | some ms => { t with moves := ms }
    | none =>
      { t with moves := t.moves ++
          [{ oldSegment := src.segment, oldIndex := src.index,
             moveTransaction := t.transaction,
             newSegment := dst.segment, newIndex := dst.index }] }

/-- A record that moved back where it started (dropped at `endTransaction`). -/
def isNoop (e : MoveEntry) : Bool :=
  e.oldSegment = e.newSegment && e.oldIndex = e.newIndex

/-- The erase loop of `DirChangeTracker::endTransaction`. -/
def dropNoops : List MoveEntry → List MoveEntry
  | [] => []
  | e :: rest => if isNoop e then dropNoops rest else e :: dropNoops rest

/-- `DirChangeTracker::endTransaction` (fslib/DirChangeTracker.cpp:81-97). -/
def endTransaction (t : DirChangeTracker) : DirChangeTracker :=
  { t with inTransaction := false, moves := dropNoops t.moves }

/-- `DirChangeTracker::getMoves`. -/
def getMoves (t : DirChangeTracker) : List MoveEntry := t.moves

end DirChangeTracker

/-- C++ `int` → `uint16_t` conversion (reduction mod 2^16). -/
def toWord (i : Int) : Nat := (i.emod 65536).toNat

namespace Directory

/-- `Directory::entrySize` (cached at construction: `ENTRY_LENGTH + extra`). -/
def entrySize (dirblk : Block) : Nat :=
  Dir.ENTRY_LENGTH + dirblk.extractWord Dir.EXTRA_BYTES

/-- `Directory::maxEntriesPerSegment`. -/
def maxEntriesPerSegment (dirblk : Block) : Nat :=
  (Block.SECTOR_SIZE * Dir.SECTORS_PER_SEGMENT - Dir.FIRST_ENTRY_OFFSET) / entrySize dirblk

/-- `Directory::startScan`. -/
def startScan (dirblk : Block) : DirPtr := DirPtr.mk0 dirblk

/-- `Directory::advanceToEndOfSegment`: scan forward to the EOS marker of the
current segment (fuelled: corrupt data without an EOS would loop in C++). -/
def advanceToEndOfSegment (dirblk : Block) : Nat → DirPtr → Option DirPtr
  | 0, _ => none
  | fuel + 1, eos =>
    if DirPtr.hasStatus dirblk eos Dir.E_EOS then some eos
    else advanceToEndOfSegment dirblk fuel (DirPtr.increment dirblk eos)

/-- The per-entry logging loop of `Directory::moveEntriesWithinSegment`
(`for (auto c = count; c--; s++, d++) tracker.moveDirEntry(s, d);`). -/
def logMoves (dirblk : Block) : Nat → DirChangeTracker → DirPtr → DirPtr →
    DirChangeTracker
  | 0, t, _, _ => t
  | c + 1, t, s, d =>
    logMoves dirblk c (DirChangeTracker.moveDirEntry dirblk s d t)
      (DirPtr.increment dirblk s) (DirPtr.increment dirblk d)

/-- `Directory::moveEntriesWithinSegment` (fslib/Directory.cpp:1015-1034):
log each entry's move in one tracker transaction, then one `memmove`. -/
def moveEntriesWithinSegment (dirblk : Block) (t : DirChangeTracker)
    (src dst : DirPtr) (count : Nat) : Block × DirChangeTracker :=
  let t := DirChangeTracker.endTransaction
    (logMoves dirblk count (DirChangeTracker.beginTransaction t) src dst)
  (dirblk.copyWithinBlock (src.offset 0) (dst.offset 0) (count * entrySize dirblk), t)

/-- `Directory::moveEntryAcrossSegments` (fslib/Directory.cpp:1042-1052). -/
def moveEntryAcrossSegments (dirblk : Block) (t : DirChangeTracker)
    (src dst : DirPtr) : Block × DirChangeTracker :=
  let t := DirChangeTracker.endTransaction
    (DirChangeTracker.moveDirEntry dirblk src dst (DirChangeTracker.beginTransaction t))
  (dirblk.copyWithinBlock (src.offset 0) (dst.offset 0) (entrySize dirblk), t)

/-- `Directory::deleteEmptyAt` (fslib/Directory.cpp:724-734): close the gap by
moving every following entry (through the EOS) one slot left. -/
def deleteEmptyAt (fuel : Nat) (dirblk : Block) (t : DirChangeTracker)
    (dirp : DirPtr) : Option (Block × DirChangeTracker) :=
  match advanceToEndOfSegment dirblk fuel dirp with
  | none => none
  | some eos =>
    let srcp := { dirp with index := dirp.index + 1 }
    let cnt := eos.index + 1 - srcp.index
    some (moveEntriesWithinSegment dirblk t srcp dirp cnt)

/-- The walk-left loop of `Directory::coalesceNeighboringFreeBlocks` — note it
calls `DirPtr::prev`, which as written advances *forward*. -/
def coalesceWalkLeft (dirblk : Block) : Nat → DirPtr → Option DirPtr
  | 0, _ => none
  | fuel + 1, first =>
    let prv := DirPtr.prev dirblk first
    if prv.beforeStart ∨ ¬DirPtr.hasStatus dirblk prv Dir.E_MPTY then some first
    else coalesceWalkLeft dirblk fuel prv

/-- The absorb loop of `Directory::coalesceNeighboringFreeBlocks`: while the
right neighbour is free, add its length into `first` and delete it. -/
def coalesceAbsorb : Nat → Block → DirChangeTracker → DirPtr →
    Option (Block × DirChangeTracker)
  | 0, _, _, _ => none
  | fuel + 1, dirblk, t, first =>
    let nxt := DirPtr.next dirblk first
    if nxt.afterEnd ∨ ¬DirPtr.hasStatus dirblk nxt Dir.E_MPTY then some (dirblk, t)
    else
      let len := DirPtr.getWord dirblk first Dir.TOTAL_LENGTH_WORD +
                 DirPtr.getWord dirblk nxt Dir.TOTAL_LENGTH_WORD
      let dirblk := DirPtr.setWord dirblk first Dir.TOTAL_LENGTH_WORD len
      let dirblk := DirPtr.setWord dirblk nxt Dir.TOTAL_LENGTH_WORD 0
      match deleteEmptyAt fuel dirblk t nxt with
      | none => none
      | some (dirblk, t) => coalesceAbsorb fuel dirblk t first

/-- `Directory::coalesceNeighboringFreeBlocks` (fslib/Directory.cpp:940-969). -/
def coalesceNeighboringFreeBlocks (fuel : Nat) (dirblk : Block)
    (t : DirChangeTracker) (ptr : DirPtr) : Option (Block × DirChangeTracker) :=
  if ¬DirPtr.hasStatus dirblk ptr Dir.E_MPTY then some (dirblk, t)
  else
    match coalesceWalkLeft dirblk fuel ptr with
    | none => none
    | some first => coalesceAbsorb fuel dirblk t first

/-- The scan of `Directory::allocateNewSegment` that finds the last entry
(and hence last segment) of the chain. -/
def findLastEntry (dirblk : Block) : Nat → DirPtr → Option DirPtr
  | 0, _ => none
  | fuel + 1, eos =>
    let nextp := DirPtr.next dirblk eos
    if nextp.afterEnd then some eos
    else findLastEntry dirblk fuel nextp

/-- `Directory::allocateNewSegment` (fslib/Directory.cpp:813-857). -/
def allocateNewSegment (fuel : Nat) (dirblk : Block) : Option (Int × Block) :=
  let nxt := 1 + dirblk.extractWord Dir.HIGHEST_SEGMENT
  if nxt > dirblk.extractWord Dir.TOTAL_SEGMENTS then some (-28, dirblk)
  else
    match findLastEntry dirblk fuel (startScan dirblk) with
    | none => none
    | some eos =>
      let header := (nxt - 1) * (Dir.SECTORS_PER_SEGMENT * Block.SECTOR_SIZE)
      let dirblk := dirblk.setWord (header + Dir.TOTAL_SEGMENTS)
        (dirblk.extractWord Dir.TOTAL_SEGMENTS)
      let dirblk := dirblk.setWord (header + Dir.NEXT_SEGMENT) 0
      let dirblk := dirblk.setWord (header + Dir.HIGHEST_SEGMENT) 0
      let dirblk := dirblk.setWord (header + Dir.EXTRA_BYTES)
        (dirblk.extractWord Dir.EXTRA_BYTES)
      let dirblk := dirblk.setWord (header + Dir.SEGMENT_DATA_BLOCK) (toWord eos.datasec)
      let entry0 := header + Dir.FIRST_ENTRY_OFFSET
      let dirblk := dirblk.setWord (entry0 + Dir.STATUS_WORD) Dir.E_EOS
      let dirblk := dirblk.setWord (entry0 + Dir.FILENAME_WORDS) 0
      let dirblk := dirblk.setWord (entry0 + Dir.FILENAME_WORDS + 2) 0
      let dirblk := dirblk.setWord (entry0 + Dir.FILENAME_WORDS + 4) 0
      let dirblk := dirblk.setWord (entry0 + Dir.TOTAL_LENGTH_WORD) 0
      let dirblk := dirblk.setByte (entry0 + Dir.JOB_BYTE) 0
      let dirblk := dirblk.setByte (entry0 + Dir.CHANNEL_BYTE) 0
      let dirblk := dirblk.setWord (entry0 + Dir.CREATION_DATE_WORD) 0
      let dirblk := DirPtr.setSegmentWord dirblk eos Dir.NEXT_SEGMENT nxt
      let dirblk := dirblk.setWord Dir.HIGHEST_SEGMENT nxt
      some (0, dirblk)

/-- The zero-sector `MPTY` entry written by `Directory::insertEmptyAt`. -/
def writeEmptyEntry (dirblk : Block) (dirp : DirPtr) : Block :=
  let dirblk := DirPtr.setWord dirblk dirp Dir.STATUS_WORD Dir.E_MPTY
  let dirblk := DirPtr.setWord dirblk dirp Dir.FILENAME_WORDS 0
  let dirblk := DirPtr.setWord dirblk dirp (Dir.FILENAME_WORDS + 2) 0
  let dirblk := DirPtr.setWord dirblk dirp (Dir.FILENAME_WORDS + 4) 0
  let dirblk := DirPtr.setWord dirblk dirp Dir.TOTAL_LENGTH_WORD 0
  let dirblk := DirPtr.setByte dirblk dirp Dir.JOB_BYTE 0
  let dirblk := DirPtr.setByte dirblk dirp Dir.CHANNEL_BYTE 0
  DirPtr.setWord dirblk dirp Dir.CREATION_DATE_WORD 0

/-- The shift-and-write tail of `Directory::insertEmptyAt` once the segment is
known to have room: move everything from the cursor through the EOS one slot
right, then write the empty entry. -/
def insertShift (dirblk : Block) (t : DirChangeTracker) (dirp eos : DirPtr) :
    Int × Block × DirChangeTracker :=
  let destp := { dirp with index := dirp.index + 1 }
  let cnt := eos.index + 1 - dirp.index
  let (dirblk, t) := moveEntriesWithinSegment dirblk t dirp destp cnt
  (0, writeEmptyEntry dirblk dirp, t)

mutual

/-- `Directory::insertEmptyAt` (fslib/Directory.cpp:674-709): spill the last
entry of the segment if it is full (possibly cascading), then shift and write
a zero-sector free entry at the cursor. -/
def insertEmptyAt : Nat → Block → DirChangeTracker → DirPtr →
    Option (Int × Block × DirChangeTracker)
  | 0, _, _, _ => none
  | fuel + 1, dirblk, t, dirp =>
    match advanceToEndOfSegment dirblk (fuel + 1) dirp with
    | none => none
    | some eos =>
      if eos.index ≥ maxEntriesPerSegment dirblk - 1 then
        match spillLastEntry fuel dirblk t dirp with
        | none => none
        | some (err, dirblk, t) =>
          if err ≠ 0 then some (err, dirblk, t)
          else
            match advanceToEndOfSegment dirblk fuel dirp with
            | none => none
            | some eos => some (insertShift dirblk t dirp eos)
      else some (insertShift dirblk t dirp eos)

/-- `Directory::spillLastEntry` (fslib/Directory.cpp:752-804): push the entry
before the EOS into the first slot of the next segment (allocating a segment
if there is none), recursively spilling. Note `auto last = eos.prev();` uses
`DirPtr::prev` as written. -/
def spillLastEntry : Nat → Block → DirChangeTracker → DirPtr →
    Option (Int × Block × DirChangeTracker)
  | 0, _, _, _ => none
  | fuel + 1, dirblk, t, dirp =>
    match advanceToEndOfSegment dirblk (fuel + 1) dirp with
    | none => none
    | some eos =>
      if eos.index = 0 then some (0, dirblk, t)
      else
        let nxt := DirPtr.next dirblk eos
        let allocStep : Option (Int × Block × DirPtr) :=
          if nxt.afterEnd then
            match allocateNewSegment fuel dirblk with
            | none => none
            | some (err, dirblk) =>
              if err ≠ 0 then some (err, dirblk, nxt)
              else some (0, dirblk, DirPtr.next dirblk eos)
          else some (0, dirblk, nxt)
        match allocStep with
        | none => none
        | some (err, dirblk, nxt) =>
          if err ≠ 0 then some (err, dirblk, t)
          else
            let last := DirPtr.prev dirblk eos
            match insertEmptyAt fuel dirblk t nxt with
            | none => none
            | some (err, dirblk, t) =>
              if err ≠ 0 then some (err, dirblk, t)
              else
                let (dirblk, t) := moveEntryAcrossSegments dirblk t last nxt
                let dirblk := DirPtr.setSegmentWord dirblk nxt
                  Dir.SEGMENT_DATA_BLOCK (toWord last.datasec)
                let dirblk := DirPtr.setWord dirblk last Dir.STATUS_WORD Dir.E_EOS
                let dirblk := DirPtr.setWord dirblk last Dir.FILENAME_WORDS 0
                let dirblk := DirPtr.setWord dirblk last (Dir.FILENAME_WORDS + 2) 0
                let dirblk := DirPtr.setWord dirblk last (Dir.FILENAME_WORDS + 4) 0
                let dirblk := DirPtr.setWord dirblk last Dir.TOTAL_LENGTH_WORD 0
                some (0, dirblk, t)

end

/-- `Directory::carveFreeBlock` (fslib/Directory.cpp:908-930). -/
def carveFreeBlock (fuel : Nat) (dirblk : Block) (t : DirChangeTracker)
    (dirp : DirPtr) (size : Int) : Option (Int × Block × DirChangeTracker) :=
  if size > (DirPtr.getWord dirblk dirp Dir.TOTAL_LENGTH_WORD : Int) then
    some (-22, dirblk, t)
  else if size < (DirPtr.getWord dirblk dirp Dir.TOTAL_LENGTH_WORD : Int) then
    let nxt := DirPtr.next dirblk dirp
    match insertEmptyAt fuel dirblk t nxt with
    | none => none
    | some (err, dirblk, t) =>
      if err ≠ 0 then some (err, dirblk, t)
      else
        let delta := (DirPtr.getWord dirblk dirp Dir.TOTAL_LENGTH_WORD : Int) - size
        let dirblk := DirPtr.setWord dirblk dirp Dir.TOTAL_LENGTH_WORD
          (toWord ((DirPtr.getWord dirblk dirp Dir.TOTAL_LENGTH_WORD : Int) - delta))
        let dirblk := DirPtr.setWord dirblk nxt Dir.TOTAL_LENGTH_WORD (toWord delta)
        some (1, dirblk, t)
  else some (0, dirblk, t)

/-- The scan loop of `Directory::findLargestFreeBlock`. -/
def flfbLoop (dirblk : Block) : Nat → DirPtr → Int → DirPtr →
    Option (Int × DirPtr × DirPtr)
  | 0, _, _, _ => none
  | fuel + 1, dirp, largest, lptr =>
    let dirp := DirPtr.increment dirblk dirp
    if ¬dirp.valid then some (largest, lptr, dirp)
    else if ¬DirPtr.hasStatus dirblk dirp Dir.E_MPTY then
      flfbLoop dirblk fuel dirp largest lptr
    else
      let len := DirPtr.getWord dirblk dirp Dir.TOTAL_LENGTH_WORD
      if (len : Int) > largest then flfbLoop dirblk fuel dirp len dirp
      else flfbLoop dirblk fuel dirp largest lptr

/-- `Directory::findLargestFreeBlock` (fslib/Directory.cpp:865-890):
the free entry with maximum length, or the after-end cursor if there is no
free entry of positive length. -/
def findLargestFreeBlock (fuel : Nat) (dirblk : Block) : Option DirPtr :=
  (flfbLoop dirblk fuel (startScan dirblk) (-1) (DirPtr.mk0 dirblk)).map
    fun r =>
      match r with
      | (largest, lptr, dirp) => if largest ≤ 0 then dirp else lptr

/-- The scan loop of the Rad50 overload of `Directory::getDirPointer`
(skips only EOS entries). -/
def gdpR50Loop (dirblk : Block) (n0 n1 n2 : Nat) : Nat → DirPtr → Option DirPtr
  | 0, _ => none
  | fuel + 1, ds =>
    let ds := DirPtr.increment dirblk ds
    if ¬ds.valid then some ds
    else if DirPtr.hasStatus dirblk ds Dir.E_EOS then gdpR50Loop dirblk n0 n1 n2 fuel ds
    else if DirPtr.getWord dirblk ds Dir.FILENAME_WORDS = n0 ∧
            DirPtr.getWord dirblk ds (Dir.FILENAME_WORDS + 2) = n1 ∧
            DirPtr.getWord dirblk ds (Dir.FILENAME_WORDS + 4) = n2 then some ds
    else gdpR50Loop dirblk n0 n1 n2 fuel ds

/-- `Directory::getDirPointer(const Rad50Name&)` (fslib/Directory.cpp:150-169):
returns the matching cursor or the after-end cursor. -/
def getDirPointerR50 (fuel : Nat) (dirblk : Block) (n0 n1 n2 : Nat) : Option DirPtr :=
  gdpR50Loop dirblk n0 n1 n2 fuel (startScan dirblk)

/-- `Directory::parseFilename` (fslib/Directory.cpp:1066-1095): split at the
first dot, bound the basename (6) and extension (3), space-pad, and Rad50-pack
the three character triples. -/
def parseFilename (name : List Char) : Option (Nat × Nat × Nat) :=
  let pieces := match Rad50.findChar name '.' with
    | some n => (name.take n, name.drop (n + 1))
    | none => (name, [])
  let base := pieces.1
  let ext := pieces.2
  if base.length > 6 ∨ ext.length > 3 then none
  else
    let base := (base ++ [' ', ' ', ' ', ' ', ' ', ' ']).take 6
    let ext := (ext ++ [' ', ' ', ' ']).take 3
    match Rad50.toRad50 (base.take 3), Rad50.toRad50 (base.drop 3), Rad50.toRad50 ext with
    | some r0, some r1, some r2 => some (r0, r1, r2)
    | _, _, _ => none

/-- The scan loop of the string overload of `Directory::getDirPointer`
(skips `MPTY` and EOS entries). -/
def gdpStrLoop (dirblk : Block) (n0 n1 n2 : Nat) : Nat → DirPtr →
    Option (Except Int DirPtr)
  | 0, _ => none
  | fuel + 1, dirp =>
    let dirp := DirPtr.increment dirblk dirp
    if ¬dirp.valid then some (.error (-2))
    else if DirPtr.hasStatus dirblk dirp Dir.E_MPTY ∨
            DirPtr.hasStatus dirblk dirp Dir.E_EOS then
      gdpStrLoop dirblk n0 n1 n2 fuel dirp
    else if DirPtr.getWord dirblk dirp Dir.FILENAME_WORDS = n0 ∧
            DirPtr.getWord dirblk dirp (Dir.FILENAME_WORDS + 2) = n1 ∧
            DirPtr.getWord dirblk dirp (Dir.FILENAME_WORDS + 4) = n2 then
      some (.ok dirp)
    else gdpStrLoop dirblk n0 n1 n2 fuel dirp

/-- `Directory::getDirPointer(const string&, unique_ptr<DirPtr>&)`
(fslib/Directory.cpp:113-138): `-EINVAL` on an unparsable name, `-ENOENT` when
the name is not present. -/
def getDirPointerStr (fuel : Nat) (dirblk : Block) (name : List Char) :
    Option (Except Int DirPtr) :=
  match parseFilename name with
  | none => some (.error (-22))
  | some (n0, n1, n2) => gdpStrLoop dirblk n0 n1 n2 fuel (startScan dirblk)

/-- `Directory::shrinkEntry` (fslib/Directory.cpp:533-552). -/
def shrinkEntry (fuel : Nat) (dirblk : Block) (t : DirChangeTracker)
    (dirp : DirPtr) (newSize : Int) : Option (Int × Block × DirChangeTracker) :=
  let nextp := DirPtr.next dirblk dirp
  let step : Option (Int × Block × DirChangeTracker) :=
    if ¬DirPtr.hasStatus dirblk nextp Dir.E_MPTY then
      insertEmptyAt fuel dirblk t nextp
    else some (0, dirblk, t)
  match step with
  | none => none
  | some (err, dirblk, t) =>
    if err ≠ 0 then some (err, dirblk, t)
    else
      let delta := (DirPtr.getWord dirblk dirp Dir.TOTAL_LENGTH_WORD : Int) - newSize
      let dirblk := DirPtr.setWord dirblk dirp Dir.TOTAL_LENGTH_WORD (toWord newSize)
      let dirblk := DirPtr.setWord dirblk nextp Dir.TOTAL_LENGTH_WORD
        (toWord ((DirPtr.getWord dirblk nextp Dir.TOTAL_LENGTH_WORD : Int) + delta))
      some (0, dirblk, t)

end Directory

/-- The state a `Directory` acts on: its pinned directory block plus the byte
image of the volume (`vol`). Single-sector data blocks obtained from the cache
during `growEntry`'s data copy and the read/write paths are collapsed into
direct 512-byte transfers on `vol`; `sync` flushes the dirty directory block
into `vol`. -/
structure DirState where
  dirblk : Block
  vol : List Nat
  deriving Repr, DecidableEq

namespace DirState

/-- `BlockCache::sync` restricted to this model's resident set (the pinned
directory block): write it back if dirty. -/
def sync (st : DirState) : DirState :=
  if st.dirblk.dirty then
    { dirblk := { st.dirblk with dirty := false }
      vol := RT11.setBytes st.vol (st.dirblk.sector * (512 : Nat)).toNat st.dirblk.data }
  else st

end DirState

namespace Directory

/-- The sector-copy loop of `Directory::growEntry` (fslib/Directory.cpp:632-638),
with the cache indirection collapsed: copy `cnt` sectors from `src` to `dst`
in the volume image. -/
def copySectors (vol : List Nat) (src dst : Int) : Nat → List Nat
  | 0 => vol
  | c + 1 =>
    let chunk := (vol.drop (src * (512 : Nat)).toNat).take 512
    copySectors (RT11.setBytes vol (dst * (512 : Nat)).toNat chunk) (src + 1) (dst + 1) c

/-- `Directory::growEntry` (fslib/Directory.cpp:573-659). -/
def growEntry (fuel : Nat) (st : DirState) (t : DirChangeTracker) (dirp : DirPtr)
    (newSize : Int) : Option (Int × DirState × DirChangeTracker × DirPtr) :=
  let dirblk := st.dirblk
  let nxt := DirPtr.next dirblk dirp
  if DirPtr.hasStatus dirblk nxt Dir.E_MPTY ∧
     newSize ≤ ((DirPtr.getWord dirblk dirp Dir.TOTAL_LENGTH_WORD +
                 DirPtr.getWord dirblk nxt Dir.TOTAL_LENGTH_WORD : Nat) : Int) then
    let delta := newSize - (DirPtr.getWord dirblk dirp Dir.TOTAL_LENGTH_WORD : Int)
    let dirblk := DirPtr.setWord dirblk dirp Dir.TOTAL_LENGTH_WORD (toWord newSize)
    let dirblk := DirPtr.setWord dirblk nxt Dir.TOTAL_LENGTH_WORD
      (toWord ((DirPtr.getWord dirblk nxt Dir.TOTAL_LENGTH_WORD : Int) - delta))
    if DirPtr.getWord dirblk nxt Dir.TOTAL_LENGTH_WORD = 0 then
      match deleteEmptyAt fuel dirblk t nxt with
      | none => none
      | some (dirblk, t) => some (0, { st with dirblk := dirblk }, t, dirp)
    else some (0, { st with dirblk := dirblk }, t, dirp)
  else
    match findLargestFreeBlock fuel dirblk with
    | none => none
    | some newp =>
      if newp.afterEnd ∨ (DirPtr.getWord dirblk newp Dir.TOTAL_LENGTH_WORD : Int) < newSize then
        some (-28, st, t, dirp)
      else
        let n0 := DirPtr.getWord dirblk dirp Dir.FILENAME_WORDS
        let n1 := DirPtr.getWord dirblk dirp (Dir.FILENAME_WORDS + 2)
        let n2 := DirPtr.getWord dirblk dirp (Dir.FILENAME_WORDS + 4)
        match carveFreeBlock fuel dirblk t newp newSize with
        | none => none
        | some (inserted, dirblk, t) =>
          if inserted < 0 then some (inserted, { st with dirblk := dirblk }, t, dirp)
          else
            let dirp :=
              if inserted = 1 ∧ newp.segment = dirp.segment ∧ newp.index < dirp.index
              then { dirp with index := dirp.index + 1 } else dirp
            let src := dirp.datasec
            let dst := newp.datasec
            let cnt := DirPtr.getWord dirblk dirp Dir.TOTAL_LENGTH_WORD
            let vol := copySectors st.vol src dst cnt
            let (dirblk, t) := moveEntryAcrossSegments dirblk t dirp newp
            let dirblk := DirPtr.setWord dirblk newp Dir.TOTAL_LENGTH_WORD (toWord newSize)
            let dirblk := DirPtr.setWord dirblk dirp Dir.STATUS_WORD Dir.E_MPTY
            let dirblk := DirPtr.setWord dirblk dirp Dir.FILENAME_WORDS 0
            let dirblk := DirPtr.setWord dirblk dirp (Dir.FILENAME_WORDS + 2) 0
            let dirblk := DirPtr.setWord dirblk dirp (Dir.FILENAME_WORDS + 4) 0
            let dirblk := DirPtr.setByte dirblk dirp Dir.JOB_BYTE 0
            let dirblk := DirPtr.setByte dirblk dirp Dir.CHANNEL_BYTE 0
            let dirblk := DirPtr.setWord dirblk dirp Dir.CREATION_DATE_WORD 0
            match coalesceNeighboringFreeBlocks fuel dirblk t dirp with
            | none => none
            | some (dirblk, t) =>
              match getDirPointerR50 fuel dirblk n0 n1 n2 with
              | none => none
              | some dirp => some (0, { dirblk := dirblk, vol := vol }, t, dirp)

/-- `Directory::truncate` (fslib/Directory.cpp:326-354): round the byte size up
to whole sectors; equal size is a no-op (the `moves` output vector is not even
cleared); otherwise shrink or grow and emit the tracker's net moves. -/
def truncate (fuel : Nat) (st : DirState) (dirp : DirPtr) (newSize : Int)
    (moves : List MoveEntry) : Option (Int × DirState × DirPtr × List MoveEntry) :=
  let t := DirChangeTracker.new
  let newSecs := Int.tdiv (newSize + (Block.SECTOR_SIZE : Nat) - 1) (Block.SECTOR_SIZE : Nat)
  let oldSize := (DirPtr.getWord st.dirblk dirp Dir.TOTAL_LENGTH_WORD : Int)
  if newSecs = oldSize then some (0, st, dirp, moves)
  else
    let step : Option (Int × DirState × DirChangeTracker × DirPtr) :=
      if newSecs < oldSize then
        (shrinkEntry fuel st.dirblk t dirp newSecs).map
          fun r => (r.1, { st with dirblk := r.2.1 }, r.2.2, dirp)
      else growEntry fuel st t dirp newSecs
    match step with
    | none => none
    | some (err, st, t, dirp) =>
      if err < 0 then some (err, st, dirp, moves)
      else some (0, st, dirp, t.getMoves)

/-- `Directory::removeEntry` (fslib/Directory.cpp:366-390): look the name up
(string overload), turn the entry into free space (keeping its length), zero
the name words, and coalesce neighbouring free blocks. -/
def removeEntry (fuel : Nat) (dirblk : Block) (name : List Char)
    (moves : List MoveEntry) : Option (Int × Block × List MoveEntry) :=
  match getDirPointerStr fuel dirblk name with
  | none => none
  | some (.error err) => some (err, dirblk, moves)
  | some (.ok dirp) =>
    let t := DirChangeTracker.new
    let dirblk := DirPtr.setWord dirblk dirp Dir.STATUS_WORD Dir.E_MPTY
    let dirblk := DirPtr.setWord dirblk dirp Dir.FILENAME_WORDS 0
    let dirblk := DirPtr.setWord dirblk dirp (Dir.FILENAME_WORDS + 2) 0
    let dirblk := DirPtr.setWord dirblk dirp (Dir.FILENAME_WORDS + 4) 0
    match coalesceNeighboringFreeBlocks fuel dirblk t dirp with
    | none => none
    | some (dirblk, t) => some (0, dirblk, t.getMoves)

/-- `Directory::rename` (fslib/Directory.cpp:404-433): parse both names, look
both up with the Rad50 overload; `-ENOENT` if the old name is missing. The
branch for an existing file of the new name contains only a `TODO unlink`
comment in the source — nothing happens there. Then the new name words are
written over the old entry and the cache is synced. -/
def rename (fuel : Nat) (st : DirState) (oldName newName : List Char) :
    Option (Int × DirState) :=
  match parseFilename oldName with
  | none => some (-22, st)
  | some (o0, o1, o2) =>
    match parseFilename newName with
    | none => some (-22, st)
    | some (n0, n1, n2) =>
      match getDirPointerR50 fuel st.dirblk o0 o1 o2 with
      | none => none
      | some oldp =>
        match getDirPointerR50 fuel st.dirblk n0 n1 n2 with
        | none => none
        | some _newp =>
          if oldp.afterEnd then some (-2, st)
          else
            let dirblk := DirPtr.setWord st.dirblk oldp Dir.FILENAME_WORDS n0
            let dirblk := DirPtr.setWord dirblk oldp (Dir.FILENAME_WORDS + 2) n1
            let dirblk := DirPtr.setWord dirblk oldp (Dir.FILENAME_WORDS + 4) n2
            some (0, DirState.sync { st with dirblk := dirblk })

/-- `Directory::makeEntryPermanent` (fslib/Directory.cpp:509-514). -/
def makeEntryPermanent (dirblk : Block) (dirp : DirPtr) : Block :=
  if DirPtr.hasStatus dirblk dirp Dir.E_TENT then
    DirPtr.setWord dirblk dirp Dir.STATUS_WORD Dir.E_PERM
  else dirblk

end Directory

/-- `OpenFileTable::OpenFileEntry` (fslib/OpenFileTable.h). -/
structure OpenFileEntry where
  refcnt : Int
  dirp : DirPtr
  deriving Repr, DecidableEq

/-- fslib/OpenFileTable.h state: the slot vector. -/
structure Oft where
  openFiles : List OpenFileEntry
  deriving Repr, DecidableEq

/-- Outcome of an open-file-table call: a normal return value, or the
`std::out_of_range` raised by `openFiles.at(fd)` for a descriptor outside the
table (a negative `fd` converts to a huge `size_t`, so it is also out of
range). -/
inductive OftOut (α : Type) where
  | ret : α → OftOut α
  | oor : OftOut α
  deriving Repr, DecidableEq

namespace Oft

/-- `openFiles.at(fd)`: the slot, or `none` when `vector::at` would throw. -/
def atSlot (oft : Oft) (fd : Int) : Option OpenFileEntry :=
  if fd < 0 then none else oft.openFiles.get? fd.toNat

/-- One iteration of `OpenFileTable::applyMoves` (fslib/OpenFileTable.cpp:287-299):
rewrite the first slot whose cursor sits at the move's old position
(`setSegment` recomputes `segbase`; `setIndex` leaves `datasec` alone). -/
def applyMove1 : List OpenFileEntry → MoveEntry → List OpenFileEntry
  | [], _ => []
  | e :: rest, mv =>
    if mv.oldSegment = e.dirp.segment ∧ mv.oldIndex = e.dirp.index then
      { e with dirp := { e.dirp.setSegment mv.newSegment with index := mv.newIndex } } :: rest
    else e :: applyMove1 rest mv

/-- `OpenFileTable::applyMoves`. -/
def applyMoves (oft : Oft) (moves : List MoveEntry) : Oft :=
  { oft with openFiles := moves.foldl applyMove1 oft.openFiles }

/-- `OpenFileTable::closeFile` (fslib/OpenFileTable.cpp:132-149): a zero-ref
slot yields `-EINVAL`; otherwise drop a reference, and on the last close make
the entry permanent and sync. -/
def closeFile (st : DirState) (oft : Oft) (fd : Int) : OftOut (Int × DirState × Oft) :=
  match atSlot oft fd with
  | none => .oor
  | some slot =>
    if slot.refcnt ≤ 0 then .ret (-22, st, oft)
    else
      let slot := { slot with refcnt := slot.refcnt - 1 }
      let oft := { oft with openFiles := oft.openFiles.set fd.toNat slot }
      if slot.refcnt = 0 then
        let st := { st with dirblk := Directory.makeEntryPermanent st.dirblk slot.dirp }
        .ret (0, DirState.sync st, oft)
      else .ret (0, st, oft)

/-- The sector loop of `OpenFileTable::readFile`, with the per-sector
`getBlock`/`copyOut`/`putBlock` collapsed into reads from the volume image.
Returns the byte count transferred and the bytes. -/
def readLoop (st : DirState) (sector0 : Int) (fileLength : Nat) :
    Nat → Int → Int → List Nat → Int → Option (Int × List Nat)
  | 0, _, _, _, _ => none
  | fuel + 1, offset, endPos, acc, got =>
    if offset < endPos then
      let sector := Int.tdiv offset 512
      if sector ≥ (fileLength : Int) then some (got, acc)
      else
        let secoffs := Int.tmod offset 512
        let leftInRead := endPos - offset
        let leftInBlock := (512 : Int) - secoffs
        let tocopy := min leftInBlock leftInRead
        let bytes := (st.vol.drop ((sector0 + sector) * 512 + secoffs).toNat).take tocopy.toNat
        readLoop st sector0 fileLength fuel (offset + tocopy) endPos (acc ++ bytes) (got + tocopy)
    else some (got, acc)

/-- `OpenFileTable::readFile` (fslib/OpenFileTable.cpp:160-196). -/
def readFile (fuel : Nat) (st : DirState) (oft : Oft) (fd : Int) (count : Nat)
    (offset : Int) : Option (OftOut (Int × List Nat)) :=
  match atSlot oft fd with
  | none => some .oor
  | some slot =>
    if slot.refcnt ≤ 0 then some (.ret (-22, []))
    else
      let fileLength := DirPtr.getWord st.dirblk slot.dirp Dir.TOTAL_LENGTH_WORD
      let sector0 := slot.dirp.datasec
      (readLoop st sector0 fileLength fuel offset (offset + count) [] 0).map .ret

/-- The sector loop of `OpenFileTable::writeFile`, cache collapsed as above;
when the file was extended and the final chunk ends short of its sector, the
tail of that sector is zero-filled. -/
def writeLoop (datasec : Int) (extendFile : Bool) :
    Nat → List Nat → List Nat → Int → Int → Int → Option (Int × List Nat)
  | 0, _, _, _, _, _ => none
  | fuel + 1, vol, buf, offset, endPos, got =>
    if offset < endPos then
      let sector := Int.tdiv offset 512
      let secoffs := Int.tmod offset 512
      let leftInRead := endPos - offset
      let leftInBlock := (512 : Int) - secoffs
      let tocopy := min leftInBlock leftInRead
      let vol := RT11.setBytes vol ((datasec + sector) * 512 + secoffs).toNat
        (buf.take tocopy.toNat)
      let vol :=
        if extendFile ∧ secoffs + tocopy < 512 then
          RT11.setBytes vol ((datasec + sector) * 512 + secoffs + tocopy).toNat
            (List.replicate ((512 : Int) - (secoffs + tocopy)).toNat 0)
        else vol
      writeLoop datasec extendFile fuel vol (buf.drop tocopy.toNat)
        (offset + tocopy) endPos (got + tocopy)
    else some (got, vol)

/-- `OpenFileTable::writeFile` (fslib/OpenFileTable.cpp:207-256): a write past
the current length first grows the file through `Directory::truncate` (the
slot's cursor is updated through the reference, then moves are applied), then
the data is copied sector by sector. -/
def writeFile (fuel : Nat) (st : DirState) (oft : Oft) (fd : Int)
    (buf : List Nat) (offset : Int) : Option (OftOut (Int × DirState × Oft)) :=
  match atSlot oft fd with
  | none => some .oor
  | some slot =>
    if slot.refcnt ≤ 0 then some (.ret (-22, st, oft))
    else
      let endPos := offset + buf.length
      let length := DirPtr.getWord st.dirblk slot.dirp Dir.TOTAL_LENGTH_WORD *
        Block.SECTOR_SIZE
      let extendFile := endPos > (length : Int)
      if extendFile then
        match Directory.truncate fuel st slot.dirp endPos [] with
        | none => none
        | some (err, st, dirp, moves) =>
          let oft := { oft with
            openFiles := oft.openFiles.set fd.toNat { slot with dirp := dirp } }
          if err < 0 then some (.ret (err, st, oft))
          else
            let oft := applyMoves oft moves
            match atSlot oft fd with
            | none => some .oor
            | some slot =>
              (writeLoop slot.dirp.datasec extendFile fuel st.vol buf offset endPos 0).map
                fun r => .ret (r.1, { st with vol := r.2 }, oft)
      else
        (writeLoop slot.dirp.datasec extendFile fuel st.vol buf offset endPos 0).map
          fun r => .ret (r.1, { st with vol := r.2 }, oft)

/-- `OpenFileTable::truncate` (fslib/OpenFileTable.cpp:258-273): delegate to
the directory (the slot's cursor is updated through the reference) and apply
the returned moves. -/
def truncateFd (fuel : Nat) (st : DirState) (oft : Oft) (fd : Int)
    (newSize : Int) : Option (OftOut (Int × DirState × Oft)) :=
  match atSlot oft fd with
  | none => some .oor
  | some slot =>
    if slot.refcnt ≤ 0 then some (.ret (-22, st, oft))
    else
      match Directory.truncate fuel st slot.dirp newSize [] with
      | none => none
      | some (err, st, dirp, moves) =>
        let oft := { oft with
          openFiles := oft.openFiles.set fd.toNat { slot with dirp := dirp } }
        if err < 0 then some (.ret (err, st, oft))
        else some (.ret (err, st, applyMoves oft moves))

end Oft

/-! Concrete volumes used to evaluate the embedded operations.  They mirror the
fixtures of tests/TestDirectory.cpp (`DirectoryBuilder::formatWithEntries`):
one directory segment at sector 6, `extra_bytes = 0`, data starting at
sector 8. -/

/-- Little-endian bytes of a 16-bit word. -/
def wbytes (v : Nat) : List Nat := [v % 256, v / 256 % 256]

/-- The 14 bytes of a directory entry (job/channel/date zero). -/
def mkEnt (status n0 n1 n2 len : Nat) : List Nat :=
  wbytes status ++ wbytes n0 ++ wbytes n1 ++ wbytes n2 ++ wbytes len ++ [0, 0, 0, 0]

/-- The 10 header bytes of a directory segment. -/
def mkHeader (totseg nxt highest extra firstdata : Nat) : List Nat :=
  wbytes totseg ++ wbytes nxt ++ wbytes highest ++ wbytes extra ++ wbytes firstdata

/-- Zero-pad a byte list to a given size. -/
def padTo (n : Nat) (l : List Nat) : List Nat :=
  l ++ List.replicate (n - l.length) 0

/-- Rad50 words of `SWAP.SYS` (as in tests/TestDirectory.cpp). -/
def swapW0 : Nat := 0o75131
def swapW1 : Nat := 0o62000
def swapW2 : Nat := 0o75273

/-- Directory image `[MPTY 2][SWAP.SYS 3][MPTY 3][EOS]` — one segment,
16-sector volume, data sectors 8..15. -/
def exDirData1 : List Nat :=
  padTo 1024 (mkHeader 1 0 1 0 8 ++
    mkEnt Dir.E_MPTY 0 0 0 2 ++
    mkEnt Dir.E_PERM swapW0 swapW1 swapW2 3 ++
    mkEnt Dir.E_MPTY 0 0 0 3 ++
    mkEnt Dir.E_EOS 0 0 0 0)

/-- The pinned directory block over `exDirData1`. -/
def exBlk1 : Block :=
  { sector := 6, count := 2, dirty := false, refcount := 1, data := exDirData1 }

/-- Directory state for `exBlk1` on a 16-sector volume. -/
def exSt1 : DirState := { dirblk := exBlk1, vol := List.replicate 8192 0 }

/-- The cursor at entry (1,1) — the `SWAP.SYS` entry — of `exBlk1`. -/
def exP11 : DirPtr :=
  DirPtr.increment exBlk1 (DirPtr.increment exBlk1 (DirPtr.mk0 exBlk1))

/-- Directory image `[PERM AAA 2][PERM BBB 3][MPTY 3][EOS]`
(`AAA` = Rad50 1641, `BBB` = Rad50 3282). -/
def exDirData5 : List Nat :=
  padTo 1024 (mkHeader 1 0 1 0 8 ++
    mkEnt Dir.E_PERM 1641 0 0 2 ++
    mkEnt Dir.E_PERM 3282 0 0 3 ++
    mkEnt Dir.E_MPTY 0 0 0 3 ++
    mkEnt Dir.E_EOS 0 0 0 0)

/-- The pinned directory block over `exDirData5`. -/
def exBlk5 : Block :=
  { sector := 6, count := 2, dirty := false, refcount := 1, data := exDirData5 }

/-- Directory state for `exBlk5`. -/
def exSt5 : DirState := { dirblk := exBlk5, vol := List.replicate 8192 0 }

/-- Directory image `[TENT AAA 2][MPTY 6][EOS]`. -/
def exDirData10 : List Nat :=
  padTo 1024 (mkHeader 1 0 1 0 8 ++
    mkEnt Dir.E_TENT 1641 0 0 2 ++
    mkEnt Dir.E_MPTY 0 0 0 6 ++
    mkEnt Dir.E_EOS 0 0 0 0)

/-- The pinned directory block over `exDirData10`. -/
def exBlk10 : Block :=
  { sector := 6, count := 2, dirty := false, refcount := 1, data := exDirData10 }

/-- The cursor at entry (1,0) of a directory block. -/
def firstEntry (blk : Block) : DirPtr := DirPtr.increment blk (DirPtr.mk0 blk)

/-- (status, name words, length) of the entry under a cursor. -/
def entrySummary (blk : Block) (p : DirPtr) : Nat × Nat × Nat × Nat × Nat :=
  (DirPtr.getWord blk p Dir.STATUS_WORD,
   DirPtr.getWord blk p Dir.FILENAME_WORDS,
   DirPtr.getWord blk p (Dir.FILENAME_WORDS + 2),
   DirPtr.getWord blk p (Dir.FILENAME_WORDS + 4),
   DirPtr.getWord blk p Dir.TOTAL_LENGTH_WORD)

/-- Walk the whole directory with the cursor, collecting every entry's
summary (EOS entries included), with fuel. -/
def listEntriesLoop (blk : Block) : Nat → DirPtr → Option (List (Nat × Nat × Nat × Nat × Nat))
  | 0, _ => none
  | fuel + 1, p =>
    let p := DirPtr.increment blk p
    if ¬p.valid then some []
    else (listEntriesLoop blk fuel p).map (entrySummary blk p :: ·)

/-- All entry summaries of a directory block. -/
def listEntries (fuel : Nat) (blk : Block) : Option (List (Nat × Nat × Nat × Nat × Nat)) :=
  listEntriesLoop blk fuel (Directory.startScan blk)

/-- A data source whose reads always fail with `-EIO` (used to exercise
`Block::resize`'s error path). -/
def failDs : DataSrc := fun _ _ => .error (-5)

/-- A data source whose reads always succeed with zero bytes. -/
def zeroDs : DataSrc := fun len _ => .ok (List.replicate len.toNat 0)

/-- A one-sector block filled with the byte 7 (sector 0). -/
def exC4blk : Block :=
  { sector := 0, count := 1, dirty := false, refcount := 0, data := List.replicate 512 7 }

/-- A resident two-sector block covering sectors 10–11. -/
def exC3blk : Block :=
  { sector := 10, count := 2, dirty := false, refcount := 1, data := List.replicate 1024 0 }

/-- A block cache with `exC3blk` resident. -/
def exC3cache : BlockCache := { sectors := 16, blocks := [exC3blk] }

/-- Cursors at entries (1,0), (1,1) and (1,2) of `exBlk5` (the first two are
`PERM` entries). -/
def exQ0 : DirPtr := firstEntry exBlk5
def exQ1 : DirPtr := DirPtr.increment exBlk5 exQ0
def exQ2 : DirPtr := DirPtr.increment exBlk5 exQ1

/-- Tracker after transaction 0 recorded the move (1,0) → (1,1) on `exBlk5`. -/
def exT1 : DirChangeTracker :=
  DirChangeTracker.endTransaction (DirChangeTracker.moveDirEntry exBlk5 exQ0 exQ1
    (DirChangeTracker.beginTransaction DirChangeTracker.new))

/-- Tracker after transaction 1 then recorded the move (1,1) → (1,2). -/
def exT2 : DirChangeTracker :=
  DirChangeTracker.endTransaction (DirChangeTracker.moveDirEntry exBlk5 exQ1 exQ2
    (DirChangeTracker.beginTransaction exT1))

/-- An open-file table with a single zero-reference (closed) slot. -/
def exOft : Oft := { openFiles := [{ refcnt := 0, dirp := DirPtr.mk0 exBlk1 }] }

/-! Helper lemmas. -/

theorem getD_set_self (l : List Nat) (i v : Nat) (h : i < l.length) :
    (l.set i v).getD i 0 = v := by
  induction l generalizing i with
  | nil => simp at h
  | cons a rest ih =>
    cases i with
    | zero => rfl
    | succ n => simpa [List.getD] using ih n (by simpa using h)

theorem getD_set_other (l : List Nat) (i j v : Nat) (h : i ≠ j) :
    (l.set i v).getD j 0 = l.getD j 0 := by
  induction l generalizing i j with
  | nil => rfl
  | cons a rest ih =>
    cases i with
    | zero =>
      cases j with
      | zero => exact absurd rfl h
      | succ m => rfl
    | succ n =>
      cases j with
      | zero => rfl
      | succ m => simpa [List.getD] using ih n m (by omega)

theorem findChar_some {l : List Char} {c : Char} {i : Nat}
    (h : Rad50.findChar l c = some i) : i < l.length ∧ l.getD i ' ' = c := by
  induction l generalizing i with
  | nil => simp [Rad50.findChar] at h
  | cons a rest ih =>
    rw [Rad50.findChar] at h
    by_cases hac : a = c
    · rw [if_pos hac] at h
      injection h with h
      subst h
      exact ⟨Nat.succ_pos _, hac⟩
    · rw [if_neg hac] at h
      obtain ⟨j, hj, rfl⟩ := Option.map_eq_some'.mp h
      obtain ⟨h1, h2⟩ := ih hj
      exact ⟨Nat.succ_lt_succ h1, by simpa [List.getD] using h2⟩

theorem toRad50Go_none {c : Char} (hn : Rad50.findChar Rad50.charset c = none) :
    ∀ (l : List Char) (acc : Nat), c ∈ l → Rad50.toRad50Go l acc = none := by
  intro l
  induction l with
  | nil => intro acc hmem; simp at hmem
  | cons a rest ih =>
    intro acc hmem
    rcases List.mem_cons.mp hmem with rfl | hmem
    · simp [Rad50.toRad50Go, hn]
    · rw [Rad50.toRad50Go]
      cases hfc : Rad50.findChar Rad50.charset a with
      | none => rfl
      | some i => exact ih _ hmem

/-- C9: for every 3-character string over the Rad50 alphabet (ordinals
`i j k` given by the charset search), `toRad50` packs it into the word
`c0·40² + c1·40 + c2` and `fromRad50` decodes that word back to the original
string; `toRad50` rejects any string of a length other than 3 and any string
containing a character outside the alphabet. -/
theorem rad50_roundtrip_and_rejects :
    (∀ (c0 c1 c2 : Char) (i j k : Nat),
       Rad50.findChar Rad50.charset c0 = some i →
       Rad50.findChar Rad50.charset c1 = some j →
       Rad50.findChar Rad50.charset c2 = some k →
       Rad50.toRad50 [c0, c1, c2] = some (i * 1600 + j * 40 + k) ∧
       Rad50.fromRad50 (i * 1600 + j * 40 + k) = [c0, c1, c2]) ∧
    (∀ s : List Char, s.length ≠ 3 → Rad50.toRad50 s = none) ∧
    (∀ (s : List Char) (c : Char), c ∈ s →
       Rad50.findChar Rad50.charset c = none → Rad50.toRad50 s = none) := by
  refine ⟨?_, ?_, ?_⟩
  · intro c0 c1 c2 i j k h0 h1 h2
    have b0 := (findChar_some h0).1
    have b1 := (findChar_some h1).1
    have b2 := (findChar_some h2).1
    have hlen : Rad50.charset.length = 40 := by rfl
    rw [hlen] at b0 b1 b2
    constructor
    · simp only [Rad50.toRad50, Rad50.toRad50Go, h0, h1, h2, List.length_cons,
        List.length_nil]
      norm_num
      omega
    · have e0 : (i * 1600 + j * 40 + k) / (40 * 40) = i := by omega
      have e1 : ((i * 1600 + j * 40 + k) / 40) % 40 = j := by omega
      have e2 : (i * 1600 + j * 40 + k) % 40 = k := by omega
      simp only [Rad50.fromRad50, e0, e1, e2, (findChar_some h0).2,
        (findChar_some h1).2, (findChar_some h2).2]
  · intro s h
    simp [Rad50.toRad50, h]
  · intro s c hc hn
    rw [Rad50.toRad50]
    by_cases hl : s.length ≠ 3
    · simp [hl]
    · simp only [hl, if_false]
      exact toRad50Go_none hn s 0 hc

theorem dropNoops_eq_filter (l : List MoveEntry) :
    DirChangeTracker.dropNoops l = l.filter (fun e => !DirChangeTracker.isNoop e) := by
  induction l with
  | nil => rfl
  | cons e rest ih =>
    rw [DirChangeTracker.dropNoops]
    by_cases h : DirChangeTracker.isNoop e
    · simp [List.filter, h, ih]
    · simp [List.filter, h, ih]

theorem rewriteChain_spec :
    ∀ (l : List MoveEntry) (txn srcSeg : Int) (srcIdx : Nat) (dstSeg : Int)
      (dstIdx : Nat) (i : Nat) (e : MoveEntry),
      l.get? i = some e →
      (e.newSegment = srcSeg ∧ e.newIndex = srcIdx ∧ e.moveTransaction ≠ txn) →
      (∀ j ej, j < i → l.get? j = some ej →
        ¬(ej.newSegment = srcSeg ∧ ej.newIndex = srcIdx ∧ ej.moveTransaction ≠ txn)) →
      DirChangeTracker.rewriteChain txn srcSeg srcIdx dstSeg dstIdx l =
        some (l.set i
          { e with moveTransaction := txn, newSegment := dstSeg, newIndex := dstIdx }) := by
  intro l
  induction l with
  | nil =>
    intro txn ss si ds di i e hget _ _
    simp at hget
  | cons a rest ih =>
    intro txn ss si ds di i e hget hcond hfirst
    cases i with
    | zero =>
      rw [List.get?] at hget
      injection hget with hget
      subst hget
      rw [DirChangeTracker.rewriteChain, if_pos hcond]
      rfl
    | succ n =>
      have hna := hfirst 0 a (Nat.succ_pos n) rfl
      rw [DirChangeTracker.rewriteChain, if_neg hna,
        ih txn ss si ds di n e hget hcond
          (fun j ej hj hg => hfirst (j + 1) ej (by omega) hg)]
      rfl

/-- C7: the change tracker records a move only for a `TENT` or `PERM` source;
a new move whose source equals the current destination of the first record not
touched in the current transaction rewrites that record's destination in place
(no append), so A→B in transaction 0 followed by B→C in transaction 1 yields
the single net record A→C (evaluated on `exBlk5`); and `endTransaction` drops
every record whose final source equals its final destination. -/
theorem tracker_records_chains_and_drops :
    (∀ (blk : Block) (src dst : DirPtr) (t : DirChangeTracker),
       ¬(DirPtr.hasStatus blk src Dir.E_TENT = true ∨
         DirPtr.hasStatus blk src Dir.E_PERM = true) →
       DirChangeTracker.moveDirEntry blk src dst t = t) ∧
    (∀ (blk : Block) (src dst : DirPtr) (t : DirChangeTracker) (i : Nat) (e : MoveEntry),
       (DirPtr.hasStatus blk src Dir.E_TENT = true ∨
        DirPtr.hasStatus blk src Dir.E_PERM = true) →
       t.moves.get? i = some e →
       (e.newSegment = src.segment ∧ e.newIndex = src.index ∧
        e.moveTransaction ≠ t.transaction) →
       (∀ j ej, j < i → t.moves.get? j = some ej →
         ¬(ej.newSegment = src.segment ∧ ej.newIndex = src.index ∧
           ej.moveTransaction ≠ t.transaction)) →
       (DirChangeTracker.moveDirEntry blk src dst t).moves =
         t.moves.set i { e with moveTransaction := t.transaction,
                                newSegment := dst.segment, newIndex := dst.index }) ∧
    exT2.moves = [{ oldSegment := 1, oldIndex := 0, moveTransaction := 1,
                    newSegment := 1, newIndex := 2 }] ∧
    (∀ t : DirChangeTracker,
       (DirChangeTracker.endTransaction t).moves =
         t.moves.filter (fun e => !DirChangeTracker.isNoop e) ∧
       (DirChangeTracker.endTransaction t).inTransaction = false) := by
  refine ⟨?_, ?_, by decide, ?_⟩
  · intro blk src dst t h
    rw [DirChangeTracker.moveDirEntry, if_pos h]
  · intro blk src dst t i e hstat hget hcond hfirst
    rw [DirChangeTracker.moveDirEntry, if_neg (not_not_intro hstat),
      rewriteChain_spec t.moves t.transaction src.segment src.index dst.segment
        dst.index i e hget hcond hfirst]
  · intro t
    exact ⟨dropNoops_eq_filter t.moves, rfl⟩

theorem extractWord_setWord_self (b : Block) (off v : Nat)
    (h1 : off + 1 < b.data.length) :
    (b.setWord off v).extractWord off = v % 65536 := by
  simp only [Block.setWord, Block.extractWord, Block.getByte]
  rw [getD_set_other _ _ _ _ (by omega), getD_set_self _ _ _ (by omega),
    getD_set_self]
  · omega
  · simpa using h1

theorem setWord_frame (b : Block) (off v j : Nat) (h1 : j ≠ off)
    (h2 : j ≠ off + 1) :
    (b.setWord off v).data.getD j 0 = b.data.getD j 0 := by
  simp only [Block.setWord]
  rw [getD_set_other _ _ _ _ (by omega), getD_set_other _ _ _ _ (by omega)]

/-- C10: `makeEntryPermanent` leaves the directory block untouched when the
entry's status lacks the `TENT` bit; when `TENT` is set it rewrites the status
word to exactly `PERM` and changes no byte outside that word (nor the block's
identity); and applying it twice equals applying it once. -/
theorem makeEntryPermanent_frame_idempotent :
    ∀ (blk : Block) (p : DirPtr), p.offset 0 + 2 ≤ blk.data.length →
    (DirPtr.hasStatus blk p Dir.E_TENT = false →
       Directory.makeEntryPermanent blk p = blk) ∧
    (DirPtr.hasStatus blk p Dir.E_TENT = true →
       DirPtr.getWord (Directory.makeEntryPermanent blk p) p Dir.STATUS_WORD =
         Dir.E_PERM ∧
       (∀ j, j ≠ p.offset 0 → j ≠ p.offset 0 + 1 →
         (Directory.makeEntryPermanent blk p).data.getD j 0 = blk.data.getD j 0) ∧
       (Directory.makeEntryPermanent blk p).sector = blk.sector ∧
       (Directory.makeEntryPermanent blk p).count = blk.count) ∧
    Directory.makeEntryPermanent (Directory.makeEntryPermanent blk p) p =
      Directory.makeEntryPermanent blk p := by
  intro blk p h
  have hword : ∀ ht : DirPtr.hasStatus blk p Dir.E_TENT = true,
      DirPtr.getWord (Directory.makeEntryPermanent blk p) p Dir.STATUS_WORD =
        Dir.E_PERM := by
    intro ht
    simp only [Directory.makeEntryPermanent, ht, if_true, DirPtr.setWord,
      DirPtr.getWord]
    rw [extractWord_setWord_self _ _ _ (by
      have hoff : p.offset Dir.STATUS_WORD = p.offset 0 := rfl
      omega)]
    decide
  refine ⟨?_, ?_, ?_⟩
  · intro hf
    simp [Directory.makeEntryPermanent, hf]
  · intro ht
    refine ⟨hword ht, ?_, ?_, ?_⟩
    · intro j hj0 hj1
      simp only [Directory.makeEntryPermanent, ht, if_true, DirPtr.setWord]
      exact setWord_frame blk (p.offset Dir.STATUS_WORD) _ j
        (by simpa [DirPtr.offset, Dir.STATUS_WORD] using hj0)
        (by simpa [DirPtr.offset, Dir.STATUS_WORD] using hj1)
    · simp [Directory.makeEntryPermanent, ht, DirPtr.setWord, Block.setWord]
    · simp [Directory.makeEntryPermanent, ht, DirPtr.setWord, Block.setWord]
  · by_cases ht : DirPtr.hasStatus blk p Dir.E_TENT = true
    · have hstat2 : DirPtr.hasStatus (Directory.makeEntryPermanent blk p) p
          Dir.E_TENT = false := by
        simp only [DirPtr.hasStatus, hword ht]
        decide
      rw [Directory.makeEntryPermanent]
      simp [hstat2]
    · have hf : DirPtr.hasStatus blk p Dir.E_TENT = false :=
        Bool.not_eq_true _ ▸ eq_false_of_ne_true ht
      simp [Directory.makeEntryPermanent, hf]

/-- C8: when the requested byte size rounds up (at 512 bytes per sector) to
the entry's current length in sectors, `Directory::truncate` returns 0, leaves
the directory state (block bytes and dirty flag) and the cursor untouched, and
emits no moves (the moves vector is returned as passed in). -/
theorem truncate_equal_size_noop :
    ∀ (fuel : Nat) (st : DirState) (dirp : DirPtr) (newSize : Int)
      (moves : List MoveEntry),
    Int.tdiv (newSize + (Block.SECTOR_SIZE : Int) - 1) (Block.SECTOR_SIZE : Int) =
      (DirPtr.getWord st.dirblk dirp Dir.TOTAL_LENGTH_WORD : Int) →
    Directory.truncate fuel st dirp newSize moves = some (0, st, dirp, moves) := by
  intro fuel st dirp newSize moves h
  simp [Directory.truncate, h]

/-- C6: every OpenFileTable operation taking a file descriptor (close, read,
write, truncate) rejects a descriptor that does not denote an open file — but
with `-EINVAL` (not `EBADF`) when the descriptor names a slot whose reference
count is ≤ 0, and with the `std::out_of_range` fault of `vector::at` (modelled
by `Oft.atSlot` returning `none`) when it lies outside the table. -/
theorem oft_invalid_fd_einval :
    ∀ (fuel : Nat) (st : DirState) (oft : Oft) (fd : Int) (count : Nat)
      (buf : List Nat) (offset newSize : Int),
    (Oft.atSlot oft fd = none →
       Oft.closeFile st oft fd = .oor ∧
       Oft.readFile fuel st oft fd count offset = some .oor ∧
       Oft.writeFile fuel st oft fd buf offset = some .oor ∧
       Oft.truncateFd fuel st oft fd newSize = some .oor) ∧
    (∀ slot, Oft.atSlot oft fd = some slot → slot.refcnt ≤ 0 →
       Oft.closeFile st oft fd = .ret (-22, st, oft) ∧
       Oft.readFile fuel st oft fd count offset = some (.ret (-22, [])) ∧
       Oft.writeFile fuel st oft fd buf offset = some (.ret (-22, st, oft)) ∧
       Oft.truncateFd fuel st oft fd newSize = some (.ret (-22, st, oft))) := by
  intro fuel st oft fd count buf offset newSize
  constructor
  · intro h
    refine ⟨?_, ?_, ?_, ?_⟩ <;>
      simp [Oft.closeFile, Oft.readFile, Oft.writeFile, Oft.truncateFd, h]
  · intro slot h hr
    refine ⟨?_, ?_, ?_, ?_⟩ <;>
      simp [Oft.closeFile, Oft.readFile, Oft.writeFile, Oft.truncateFd, h, hr]

set_option maxRecDepth 200000 in
/-- C1 (violated by the code): on the directory
`[MPTY 2][SWAP.SYS 3][MPTY 3][EOS]`, `removeEntry("SWAP.SYS")` returns success
with an empty move log but leaves THREE adjacent `MPTY` entries — the free
runs are not merged, because `coalesceNeighboringFreeBlocks` walks "left"
through `DirPtr::prev`, which advances forward. -/
theorem remove_entry_leaves_adjacent_mpty :
    (Directory.removeEntry 64 exBlk1 ("SWAP.SYS".toList) []).map
      (fun r => (r.1, listEntries 32 r.2.1, r.2.2)) =
    some (0,
      some [(Dir.E_MPTY, 0, 0, 0, 2), (Dir.E_MPTY, 0, 0, 0, 3),
            (Dir.E_MPTY, 0, 0, 0, 3), (Dir.E_EOS, 0, 0, 0, 0)],
      ([] : List MoveEntry)) := by
  rfl

set_option maxRecDepth 200000 in
/-- C2 (violated by the code): for the valid cursor at (1,1) of `exBlk1`,
`DirPtr::prev` yields (1,2) — the *next* entry — so `next ∘ prev` lands on
(1,3) instead of restoring (1,1); `DirPtr::decrement` itself does return the
true predecessor (1,0). -/
theorem prev_advances_instead_of_backing_up :
    (DirPtr.prev exBlk1 exP11).segment = 1 ∧
    (DirPtr.prev exBlk1 exP11).index = 2 ∧
    ((DirPtr.next exBlk1 (DirPtr.prev exBlk1 exP11)).segment,
     (DirPtr.next exBlk1 (DirPtr.prev exBlk1 exP11)).index) ≠ (1, 1) ∧
    (DirPtr.decrement 64 exBlk1 exP11).map (fun q => (q.segment, q.index)) =
      some ((1 : Int), (0 : Nat)) := by
  decide

set_option maxRecDepth 200000 in
/-- C3 (violated by the code): a `getBlock(11, 2)` request straddling the
resident block at sectors 10–11 does not fail — because its count equals the
resident block's count, the walk falls through, reads, and inserts a second
block, leaving two overlapping resident blocks. -/
theorem getBlock_straddle_same_count_inserts_overlap :
    (BlockCache.getBlock zeroDs exC3cache 11 2).map
      (fun r => (r.1.blocks.map (fun b => (b.sector, b.count)),
                 BlockCache.anyOverlap r.1.blocks)) =
    .ok ([((10 : Int), (2 : Int)), (11, 2)], true) := by
  rfl

set_option maxRecDepth 200000 in
/-- C4 (violated by the code): growing a one-sector block (512 data bytes)
with a failing data source re-raises the fault, but the buffer is restored to
`count` = 1 byte, not the previous `count * 512` = 512 bytes
(`data.resize(count)` in the source drops the `* SECTOR_SIZE`). -/
theorem resize_error_restores_sector_count_bytes :
    (Block.resize exC4blk 2 failDs).mapError (fun e => (e.1, e.2.data.length)) =
      .error ((-5 : Int), (1 : Nat)) ∧
    exC4blk.data.length = 512 := by
  exact ⟨by rfl, by rfl⟩

set_option maxRecDepth 200000 in
/-- C5 (violated by the code): renaming `AAA` to `BBB` while a file `BBB`
exists returns success and leaves TWO non-free (`PERM`) entries named `BBB`
(Rad50 words 3282,0,0) — the existing file is neither unlinked nor is
`-EEXIST` returned (the source holds only a `TODO unlink`). -/
theorem rename_onto_existing_name_duplicates_it :
    (Directory.rename 64 exSt5 ("AAA".toList) ("BBB".toList)).map
      (fun r => (r.1, listEntries 32 r.2.dirblk)) =
    some (0,
      some [(Dir.E_PERM, 3282, 0, 0, 2), (Dir.E_PERM, 3282, 0, 0, 3),
            (Dir.E_MPTY, 0, 0, 0, 3), (Dir.E_EOS, 0, 0, 0, 0)]) := by
  rfl

set_option maxRecDepth 200000 in
/-- C6 counterexample: closing the zero-reference slot 0 returns `-EINVAL`
(−22), not `-EBADF` (−9), refuting the claim as stated. -/
theorem close_zero_ref_returns_einval_not_ebadf :
    Oft.closeFile exSt1 exOft 0 = .ret (-22, exSt1, exOft) ∧
    ((-22 : Int) = -9 → False) := by
  exact ⟨by rfl, by decide⟩

set_option maxRecDepth 200000 in
/-- C6 witness: the amended theorem applied at fd 1 (outside the one-slot
table) and fd 0 (zero-reference slot) of `exOft`. -/
theorem oft_invalid_fd_einval_witness :
    Oft.atSlot exOft 1 = none ∧
    Oft.closeFile exSt1 exOft 1 = .oor ∧
    Oft.atSlot exOft 0 = some { refcnt := 0, dirp := DirPtr.mk0 exBlk1 } ∧
    (0 : Int) ≤ 0 ∧
    Oft.closeFile exSt1 exOft 0 = .ret (-22, exSt1, exOft) :=
  ⟨by rfl,
   ((oft_invalid_fd_einval 8 exSt1 exOft 1 0 [] 0 0).1 (by rfl)).1,
   by rfl,
   by decide,
   ((oft_invalid_fd_einval 8 exSt1 exOft 0 0 [] 0 0).2
     { refcnt := 0, dirp := DirPtr.mk0 exBlk1 } (by rfl) (by decide)).1⟩

set_option maxRecDepth 200000 in
/-- C7 witness: the tracker theorem applied at concrete inputs — an `MPTY`
source on `exBlk1` is not recorded, and the second move of the `exT2` chain
(source (1,1), first matching record at index 0) rewrites that record. -/
theorem tracker_records_chains_and_drops_witness :
    DirChangeTracker.moveDirEntry exBlk1 (firstEntry exBlk1) exP11
      DirChangeTracker.new = DirChangeTracker.new ∧
    (DirChangeTracker.moveDirEntry exBlk5 exQ1 exQ2
      (DirChangeTracker.beginTransaction exT1)).moves =
      (DirChangeTracker.beginTransaction exT1).moves.set 0
        { oldSegment := 1, oldIndex := 0, moveTransaction := 1,
          newSegment := 1, newIndex := 2 } :=
  ⟨(tracker_records_chains_and_drops).1 exBlk1 (firstEntry exBlk1) exP11
     DirChangeTracker.new (by decide),
   (tracker_records_chains_and_drops).2.1 exBlk5 exQ1 exQ2
     (DirChangeTracker.beginTransaction exT1) 0
     { oldSegment := 1, oldIndex := 0, moveTransaction := 0,
       newSegment := 1, newIndex := 1 }
     (by decide) (by decide) (by decide)
     (fun j ej hj _ => absurd hj (by omega))⟩

set_option maxRecDepth 200000 in
/-- C8 witness: truncating the 3-sector `SWAP.SYS` entry of `exSt1` to
1536 bytes (which rounds to 3 sectors) is a no-op. -/
theorem truncate_equal_size_noop_witness :
    Int.tdiv ((1536 : Int) + (Block.SECTOR_SIZE : Int) - 1) (Block.SECTOR_SIZE : Int) =
      (DirPtr.getWord exSt1.dirblk exP11 Dir.TOTAL_LENGTH_WORD : Int) ∧
    Directory.truncate 64 exSt1 exP11 1536 [] = some (0, exSt1, exP11, []) :=
  ⟨by decide, truncate_equal_size_noop 64 exSt1 exP11 1536 [] (by decide)⟩

/-- C9 witness: the round-trip theorem applied to `SWA` (ordinals 19, 23, 1),
and the rejection clauses applied to a 2-character string and to a lowercase
character. -/
theorem rad50_roundtrip_and_rejects_witness :
    Rad50.findChar Rad50.charset 'S' = some 19 ∧
    (Rad50.toRad50 ['S', 'W', 'A'] = some (19 * 1600 + 23 * 40 + 1) ∧
     Rad50.fromRad50 (19 * 1600 + 23 * 40 + 1) = ['S', 'W', 'A']) ∧
    Rad50.toRad50 ['S', 'W'] = none ∧
    Rad50.toRad50 ['S', 'w', 'A'] = none :=
  ⟨by decide,
   (rad50_roundtrip_and_rejects).1 'S' 'W' 'A' 19 23 1 (by decide) (by decide)
     (by decide),
   (rad50_roundtrip_and_rejects).2.1 ['S', 'W'] (by decide),
   (rad50_roundtrip_and_rejects).2.2 ['S', 'w', 'A'] 'w' (by decide) (by decide)⟩

set_option maxRecDepth 200000 in
/-- C10 witness: the frame/idempotence theorem applied to the `TENT` entry at
(1,0) of `exBlk10`. -/
theorem makeEntryPermanent_frame_idempotent_witness :
    (firstEntry exBlk10).offset 0 + 2 ≤ exBlk10.data.length ∧
    Directory.makeEntryPermanent
        (Directory.makeEntryPermanent exBlk10 (firstEntry exBlk10))
        (firstEntry exBlk10) =
      Directory.makeEntryPermanent exBlk10 (firstEntry exBlk10) ∧
    DirPtr.getWord (Directory.makeEntryPermanent exBlk10 (firstEntry exBlk10))
        (firstEntry exBlk10) Dir.STATUS_WORD = Dir.E_PERM :=
  ⟨by decide,
   (makeEntryPermanent_frame_idempotent exBlk10 (firstEntry exBlk10)
     (by decide)).2.2,
   ((makeEntryPermanent_frame_idempotent exBlk10 (firstEntry exBlk10)
     (by decide)).2.1 (by decide)).1⟩

end RT11
